import Mathlib

/-!
Verification development for the CodeCrackr multi-provider AI orchestration layer
(`codecrackr/services/ai_manager.py`, `codecrackr/services/ai_providers/`).

The Python code is shallowly embedded:
* Python dict/list/str/number results are modelled by the inductive `JVal`
  and objects by association lists `JObj` that preserve insertion order,
  exactly as Python 3.7+ dicts do.
* Exceptions are modelled by `Except PyErr`.
* External effects (the `openai` and `google.generativeai` libraries, the
  HTTP transport used by the OpenRouter adapter, and `json.loads`) are
  modelled as explicit parameters describing the outcome of the one call a
  method performs.
* Python's abstract-base-class machinery is modelled by comparing the set of
  abstract method names of `AIProvider` with the method names each concrete
  class defines: instantiating a class that leaves an abstract method
  undefined raises `TypeError`.
-/

/-- Model of the JSON-like values manipulated by the providers: the possible
results of `json.loads` and the dictionaries built by the mock generators. -/
inductive JVal where
  | jnull : JVal
  | jstr : String → JVal
  | jnum : Int → JVal
  | jbool : Bool → JVal
  | jlist : List JVal → JVal
  | jobj : List (String × JVal) → JVal

/-- A Python dict with string keys, in insertion order. -/
abbrev JObj := List (String × JVal)

/-- Python truthiness of an optional string: `None` and the empty string are
falsy, every other string is truthy. -/
def truthy : Option String → Bool
  | none => false
  | some s => !s.isEmpty

/-- The fields of `file_info` read by the adapters: `name`, `language` and
`content` (spec: FileDescriptor; remaining fields are never read by the core). -/
structure FileInfo where
  name : String
  language : String
  content : String

/-- The fields of `repo_data` read by the adapters: `name`, `languages`
(language to file count, insertion ordered), `file_count` and `size_mb`
(sizes modelled as naturals). -/
structure RepoData where
  name : String
  languages : List (String × Nat)
  file_count : Nat
  size_mb : Nat

/-- The credential slots of `config.Config` consulted by
`AIManager.load_providers` (`config.py` lines 13-15): unset variables are
`none`. -/
structure Config where
  OPENAI_API_KEY : Option String
  GEMINI_API_KEY : Option String
  OPENROUTER_API_KEY : Option String

/-- Outcomes of the optional library imports attempted in the OpenAI and
Gemini constructors (`openai_provider.py` lines 15-22,
`gemini_provider.py` lines 15-22). -/
structure Env where
  openaiImportOk : Bool
  geminiImportOk : Bool

/-- Python exceptions that the embedding distinguishes. -/
inductive PyErr where
  | typeError
deriving DecidableEq

/-- The four provider classes of the system. -/
inductive ProviderKind where
  | openai
  | gemini
  | openrouter
  | mockP
deriving DecidableEq

/-- Names of the abstract methods declared in `AIProvider`
(`base.py` lines 15-33). -/
def AIProviderAbstractMethods : List String :=
  ["generate_file_analysis", "generate_repository_summary",
   "generate_architecture_diagram", "is_available"]

/-- Methods defined by `OpenAIProvider` (`openai_provider.py`): it overrides
`is_available`. -/
def definedMethodsOpenAI : List String :=
  ["__init__", "is_available", "generate_file_analysis",
   "generate_repository_summary", "generate_architecture_diagram",
   "_get_file_analysis_prompt", "_get_repository_summary_prompt",
   "_mock_file_analysis", "_mock_repository_summary",
   "_mock_architecture_diagram"]

/-- Methods defined by `GeminiProvider` (`gemini_provider.py`): it overrides
`is_available`. -/
def definedMethodsGemini : List String :=
  ["__init__", "is_available", "generate_file_analysis",
   "generate_repository_summary", "generate_architecture_diagram",
   "_get_file_analysis_prompt", "_get_repository_summary_prompt",
   "_mock_file_analysis", "_mock_repository_summary",
   "_mock_architecture_diagram"]

/-- Methods defined by `OpenRouterProvider` (`openrouter_provider.py` lines
12-192): note that `is_available` is NOT among them. -/
def definedMethodsOpenRouter : List String :=
  ["__init__", "generate_file_analysis", "generate_repository_summary",
   "generate_architecture_diagram", "_get_file_analysis_prompt",
   "_get_repository_summary_prompt", "_mock_file_analysis",
   "_mock_repository_summary", "_mock_architecture_diagram"]

/-- Methods defined by the inner `MockProvider` of
`AIManager._create_mock_provider` (`ai_manager.py` lines 86-125): note that
`is_available` is NOT among them. -/
def definedMethodsMock : List String :=
  ["__init__", "generate_file_analysis", "generate_repository_summary",
   "generate_architecture_diagram", "_mock_file_analysis",
   "_mock_repository_summary", "_mock_architecture_diagram"]

/-- The methods each provider class defines (for the ABC instantiation
check). -/
def definedMethods : ProviderKind → List String
  | ProviderKind.openai => definedMethodsOpenAI
  | ProviderKind.gemini => definedMethodsGemini
  | ProviderKind.openrouter => definedMethodsOpenRouter
  | ProviderKind.mockP => definedMethodsMock

/-- Python ABC rule: a class can be instantiated iff every abstract method of
its base is defined in the class; otherwise instantiation raises TypeError. -/
def instantiationOk (defined : List String) : Bool :=
  AIProviderAbstractMethods.all (fun m => defined.contains m)

/-- The runtime state of a provider instance: its class, the fields set by
`AIProvider.__init__` (`base.py` lines 10-13: `name`, `api_key`,
`enabled = bool(api_key)`) and whether the optional client/model handle was
successfully constructed (`self.client` / `self.model` non-None). -/
structure Provider where
  kind : ProviderKind
  name : String
  api_key : Option String
  enabled : Bool
  hasClient : Bool
deriving DecidableEq

/-- The `__init__` bodies of the four provider classes.
OpenAI (`openai_provider.py` lines 12-22): base init, then if the key is
truthy try to import `openai`; on failure set `enabled = False` and leave the
client `None`. Gemini (`gemini_provider.py` lines 12-22) is analogous.
OpenRouter (`openrouter_provider.py` lines 12-14): base init only (plus a
`base_url` constant, not modelled). The inner MockProvider (`ai_manager.py`
lines 87-88) hardcodes `super().__init__("Mock", "mock_key")`, ignoring any
argument. -/
def initProvider (k : ProviderKind) (api_key : Option String) (importOk : Bool) : Provider :=
  match k with
  | ProviderKind.openai =>
      if truthy api_key then
        if importOk then
          { kind := k, name := "OpenAI", api_key := api_key,
            enabled := truthy api_key, hasClient := true }
        else
          { kind := k, name := "OpenAI", api_key := api_key,
            enabled := false, hasClient := false }
      else
        { kind := k, name := "OpenAI", api_key := api_key,
          enabled := truthy api_key, hasClient := false }
  | ProviderKind.gemini =>
      if truthy api_key then
        if importOk then
          { kind := k, name := "Gemini", api_key := api_key,
            enabled := truthy api_key, hasClient := true }
        else
          { kind := k, name := "Gemini", api_key := api_key,
            enabled := false, hasClient := false }
      else
        { kind := k, name := "Gemini", api_key := api_key,
          enabled := truthy api_key, hasClient := false }
  | ProviderKind.openrouter =>
      { kind := k, name := "OpenRouter", api_key := api_key,
        enabled := truthy api_key, hasClient := false }
  | ProviderKind.mockP =>
      { kind := k, name := "Mock", api_key := some "mock_key",
        enabled := truthy (some "mock_key"), hasClient := false }

/-- Instantiating a provider class: the ABC check first (TypeError if an
abstract method is left undefined), then the `__init__` body. -/
def instantiateProvider (k : ProviderKind) (api_key : Option String)
    (importOk : Bool) : Except PyErr Provider :=
  if instantiationOk (definedMethods k) then
    Except.ok (initProvider k api_key importOk)
  else
    Except.error PyErr.typeError

/-- Dynamic dispatch of `is_available`. OpenAI: `bool(self.enabled and
self.client)` (`openai_provider.py` lines 24-25). Gemini: `bool(self.enabled
and self.model)` (`gemini_provider.py` lines 24-25). OpenRouter and the
inner MockProvider do not override it, so a (non-constructible) instance
would run the abstract base body `return self.enabled` (`base.py` lines
30-33). -/
def Provider.is_available (p : Provider) : Bool :=
  match p.kind with
  | ProviderKind.openai => p.enabled && p.hasClient
  | ProviderKind.gemini => p.enabled && p.hasClient
  | ProviderKind.openrouter => p.enabled
  | ProviderKind.mockP => p.enabled

/-- The dict returned by `AIProvider.get_usage_info` (`base.py` lines 35-41). -/
structure UsageInfo where
  name : String
  enabled : Bool
  has_api_key : Bool
deriving DecidableEq

/-- `AIProvider.get_usage_info` (`base.py` lines 35-41). -/
def Provider.get_usage_info (p : Provider) : UsageInfo :=
  { name := p.name, enabled := p.enabled, has_api_key := truthy p.api_key }

/-- The fixed file-analysis system prompt, identical across the three real
adapters (`openai_provider.py` lines 149-152, `openrouter_provider.py` lines
160-161, `gemini_provider.py` lines 114-117). -/
def fileAnalysisPrompt : String :=
  "You are an expert code analyst. Analyze the provided code file and generate a comprehensive tutorial-style explanation in JSON format."

/-- The fixed repository-summary system prompt, identical across the three
real adapters. -/
def repositorySummaryPrompt : String :=
  "You are a technical writer. Generate a comprehensive repository summary and tutorial structure in JSON format."

/-- The fixed architecture-diagram system prompt, identical across the three
real adapters. -/
def diagramPrompt : String :=
  "Generate a Mermaid diagram showing the high-level architecture of this repository."

/-- The user message built by `OpenAIProvider.generate_file_analysis`
(`openai_provider.py` lines 34-41): the content excerpt is truncated at 4000
characters with an explicit marker, then interpolated after the language and
file name. -/
def openaiFileUserContent (file_info : FileInfo) : String :=
  let content := file_info.content
  let content := if 4000 < content.length then content.take 4000 ++ "... [truncated]" else content
  "Analyze this " ++ file_info.language ++ " file: " ++ file_info.name ++ "\n\n" ++ content

/-- The user message built by `OpenRouterProvider.generate_file_analysis`
(`openrouter_provider.py` lines 22-38): same capping and interpolation. -/
def openrouterFileUserContent (file_info : FileInfo) : String :=
  let content := file_info.content
  let content := if 4000 < content.length then content.take 4000 ++ "... [truncated]" else content
  "Analyze this " ++ file_info.language ++ " file: " ++ file_info.name ++ "\n\n" ++ content

/-- The single message string built by `GeminiProvider.generate_file_analysis`
(`gemini_provider.py` lines 33-37): the system prompt, a newline, then the
same capped user text. -/
def geminiFileMessage (file_info : FileInfo) : String :=
  let content := file_info.content
  let content := if 4000 < content.length then content.take 4000 ++ "... [truncated]" else content
  fileAnalysisPrompt ++ "\n" ++ "Analyze this " ++ file_info.language ++ " file: " ++ file_info.name ++ "\n\n" ++ content

/-- Escaping of one character in a JSON string, as `json.dumps` performs it
for the characters that can occur here. -/
def jsonEscapeChar (c : Char) : String :=
  if c = '"' then "\\\""
  else if c = '\\' then "\\\\"
  else if c = '\n' then "\\n"
  else if c = '\t' then "\\t"
  else if c = '\r' then "\\r"
  else String.singleton c

/-- A JSON string literal, as `json.dumps` renders it. -/
def jsonStrLit (s : String) : String :=
  "\"" ++ String.join (s.data.map jsonEscapeChar) ++ "\""

/-- `json.dumps` of the `languages` sub-dict at nesting depth 1 with
`indent=2`: an empty dict renders compactly, a non-empty one with one
four-space-indented entry per line. -/
def dumpsLanguages (langs : List (String × Nat)) : String :=
  match langs with
  | [] => "\x7b\x7d"
  | _ =>
      "\x7b\n"
        ++ String.intercalate ",\n"
            (langs.map (fun kv => "    " ++ jsonStrLit kv.1 ++ ": " ++ toString kv.2))
        ++ "\n  \x7d"

/-- `json.dumps(repo_info, indent=2)` for the four-field `repo_info` dict the
adapters build from `repo_data` (`openai_provider.py` lines 88-93,
`openrouter_provider.py` lines 84-89, `gemini_provider.py` lines 77-82). -/
def dumpsRepoInfo (repo_data : RepoData) : String :=
  "\x7b\n  \"name\": " ++ jsonStrLit repo_data.name
    ++ ",\n  \"languages\": " ++ dumpsLanguages repo_data.languages
    ++ ",\n  \"file_count\": " ++ toString repo_data.file_count
    ++ ",\n  \"size_mb\": " ++ toString repo_data.size_mb
    ++ "\n\x7d"

/-- The (role, content) message list built by
`OpenAIProvider.generate_repository_summary` (`openai_provider.py` lines
86-100); the `file_analyses` parameter is in scope but never read. -/
def openaiRepoSummaryMessages (repo_data : RepoData)
    (_file_analyses : List JObj) : List (String × String) :=
  [("system", repositorySummaryPrompt),
   ("user", "Generate summary for: " ++ dumpsRepoInfo repo_data)]

/-- The (role, content) message list built by
`OpenRouterProvider.generate_repository_summary` (`openrouter_provider.py`
lines 81-106); the `file_analyses` parameter is in scope but never read. -/
def openrouterRepoSummaryMessages (repo_data : RepoData)
    (_file_analyses : List JObj) : List (String × String) :=
  [("system", repositorySummaryPrompt),
   ("user", "Generate summary for: " ++ dumpsRepoInfo repo_data)]

/-- The single message string built by
`GeminiProvider.generate_repository_summary` (`gemini_provider.py` lines
76-83); the `file_analyses` parameter is in scope but never read. -/
def geminiRepoSummaryMessage (repo_data : RepoData)
    (_file_analyses : List JObj) : String :=
  repositorySummaryPrompt ++ "\nGenerate summary for: " ++ dumpsRepoInfo repo_data

/-- The display name used in each class's mock text. -/
def providerDisplayName : ProviderKind → String
  | ProviderKind.openai => "OpenAI"
  | ProviderKind.gemini => "Gemini"
  | ProviderKind.openrouter => "OpenRouter"
  | ProviderKind.mockP => "Mock"

/-- The `key_components` entry of each class's `_mock_file_analysis`: the
three real adapters include `line_number: 1`, the Manager's inner
MockProvider (`ai_manager.py` line 103) omits it. -/
def mockKeyComponents : ProviderKind → JVal
  | ProviderKind.mockP =>
      JVal.jlist [JVal.jobj
        [("name", JVal.jstr "main"), ("type", JVal.jstr "function"),
         ("description", JVal.jstr "Main functionality")]]
  | _ =>
      JVal.jlist [JVal.jobj
        [("name", JVal.jstr "main"), ("type", JVal.jstr "function"),
         ("description", JVal.jstr "Main functionality"),
         ("line_number", JVal.jnum 1)]]

/-- `_mock_file_analysis` of each class (`openai_provider.py` lines 159-174,
`openrouter_provider.py` lines 166-174, `gemini_provider.py` lines 124-139,
`ai_manager.py` lines 99-107). -/
def mockFileAnalysis (k : ProviderKind) (file_info : FileInfo) : JObj :=
  [("file_name", JVal.jstr file_info.name),
   ("description",
     JVal.jstr (providerDisplayName k ++ " analysis for " ++ file_info.language ++ " file")),
   ("key_components", mockKeyComponents k),
   ("purpose", JVal.jstr "Core functionality"),
   ("dependencies", JVal.jlist [JVal.jstr "standard library"]),
   ("complexity", JVal.jstr "medium")]

/-- The `overview` string of each class's `_mock_repository_summary`. -/
def overviewText : ProviderKind → String
  | ProviderKind.openai => "OpenAI-powered repository analysis"
  | ProviderKind.gemini => "Gemini-powered repository analysis"
  | ProviderKind.openrouter => "OpenRouter-powered repository analysis"
  | ProviderKind.mockP => "Mock repository analysis"

/-- `_mock_repository_summary` of each class (`openai_provider.py` lines
176-190, `openrouter_provider.py` lines 176-186, `gemini_provider.py` lines
141-155, `ai_manager.py` lines 109-119). -/
def mockRepositorySummary (k : ProviderKind) (repo_data : RepoData) : JObj :=
  [("repository_name", JVal.jstr repo_data.name),
   ("overview", JVal.jstr (overviewText k)),
   ("architecture", JVal.jobj [("description", JVal.jstr "Modular architecture")]),
   ("key_features",
     JVal.jlist [JVal.jobj [("name", JVal.jstr "Core"),
                            ("description", JVal.jstr "Main features")]]),
   ("tutorial_sections",
     JVal.jlist [JVal.jobj [("title", JVal.jstr "Getting Started"),
                            ("description", JVal.jstr "Introduction"),
                            ("difficulty", JVal.jstr "beginner")]]),
   ("learning_path",
     JVal.jlist [JVal.jobj [("step", JVal.jnum 1),
                            ("title", JVal.jstr "Overview"),
                            ("description", JVal.jstr "Understand the project")]]),
   ("technical_stack", JVal.jlist (repo_data.languages.map (fun kv => JVal.jstr kv.1))),
   ("complexity_level", JVal.jstr "medium")]

/-- `_mock_architecture_diagram` of each class (`openai_provider.py` lines
192-195, `openrouter_provider.py` lines 188-192, `gemini_provider.py` lines
157-160, `ai_manager.py` lines 121-125). -/
def mockArchitectureDiagram (k : ProviderKind) (repo_data : RepoData) : String :=
  "graph TD\n    A[" ++ repo_data.name ++ "] --> B["
    ++ providerDisplayName k ++ " Analysis]\n    B --> C[Files: "
    ++ toString repo_data.file_count ++ "]\n    B --> D[Languages: "
    ++ String.intercalate ", " (repo_data.languages.map (fun kv => kv.1)) ++ "]"

/-- Model of `re.search(r"\x7b.*\x7d", result, re.DOTALL)` followed by
`.group()`, on the character list of the reply: the greedy match runs from
the first opening brace to the last closing brace; `none` when no such match
exists. -/
def extractBracesL (s : List Char) : Option (List Char) :=
  let t := s.dropWhile (fun c => !(c == '{'))
  let u := (t.reverse.dropWhile (fun c => !(c == '}'))).reverse
  if 2 ≤ u.length then some u else none

/-- String version of `extractBracesL`. -/
def extractBraces (s : String) : Option String :=
  (extractBracesL s.data).map String.mk

/-- The wrapped-text stub built when a file-analysis reply has no parseable
brace-delimited block (`openai_provider.py` lines 57-74,
`openrouter_provider.py` lines 53-70, `gemini_provider.py` lines 46-63):
`description` carries the raw reply, the list fields are empty. -/
def wrappedStub (file_name result : String) : JObj :=
  [("file_name", JVal.jstr file_name),
   ("description", JVal.jstr result),
   ("key_components", JVal.jlist []),
   ("purpose", JVal.jstr "File analysis"),
   ("dependencies", JVal.jlist []),
   ("complexity", JVal.jstr "medium")]

/-- Normalization of a file-analysis reply, common to the three real adapters
(`openai_provider.py` lines 51-74): search for the greedy brace-delimited
block; if found, `json.loads` it (modelled by `parse`, which yields the
parsed object or `none` when `json.loads` raises); if the search or the
parse fails, fall back to the wrapped-text stub. -/
def normalizeFileAnalysis (parse : String → Option JObj)
    (file_name result : String) : JObj :=
  match extractBraces result with
  | some cand =>
      match parse cand with
      | some obj => obj
      | none => wrappedStub file_name result
  | none => wrappedStub file_name result

/-- Normalization of a repository-summary reply, common to the three real
adapters (`openai_provider.py` lines 107-117): same search-and-parse, but
both failure paths return the class's `_mock_repository_summary`, not a
wrapped-text stub. -/
def normalizeRepoSummary (parse : String → Option JObj) (k : ProviderKind)
    (repo_data : RepoData) (result : String) : JObj :=
  match extractBraces result with
  | some cand =>
      match parse cand with
      | some obj => obj
      | none => mockRepositorySummary k repo_data
  | none => mockRepositorySummary k repo_data

/-- Outcome of the HTTP round trip performed by the OpenRouter adapter:
either `requests.post` raises, or it yields a response with a status code
and (modelled) extracted reply text, where `none` stands for a body whose
JSON decoding or key lookups raise. -/
inductive Transport where
  | netFail : Transport
  | resp : Nat → Option String → Transport

/-- `requests.post` + `response.raise_for_status()` + the
`response.json()["choices"][0]["message"]["content"]` extraction
(`openrouter_provider.py` lines 44-47): any network failure, any status in
the 4xx/5xx range, and any body-shape failure raise; otherwise the reply
text is produced. -/
def openRouterCallText (t : Transport) : Except Unit String :=
  match t with
  | Transport.netFail => Except.error ()
  | Transport.resp status body =>
      if 400 ≤ status ∧ status < 600 then Except.error ()
      else
        match body with
        | none => Except.error ()
        | some s => Except.ok s

/-- The external-world parameters of one orchestration call: the `json.loads`
behaviour, the outcome of the one OpenAI SDK call, the outcome of the one
Gemini SDK call (each `Except.error` models a raised exception caught by the
adapter's outer handler), and the OpenRouter HTTP outcome. -/
structure CallEnv where
  parse : String → Option JObj
  openaiCall : Except Unit String
  geminiCall : Except Unit String
  orTransport : Transport

/-- Dynamic dispatch of `generate_file_analysis`
(`openai_provider.py` lines 27-77, `gemini_provider.py` lines 27-66,
`openrouter_provider.py` lines 16-74, `ai_manager.py` lines 90-91): if the
provider is unavailable return its mock analysis; otherwise perform the
backend call, return the mock analysis if it raises, and normalize the reply
otherwise. The OpenRouter and MockProvider branches model method bodies of
classes that cannot actually be instantiated (abstract `is_available`). -/
def Provider.generate_file_analysis (p : Provider) (cenv : CallEnv)
    (file_info : FileInfo) : JObj :=
  match p.kind with
  | ProviderKind.openai =>
      if p.is_available then
        match cenv.openaiCall with
        | Except.error _ => mockFileAnalysis ProviderKind.openai file_info
        | Except.ok result => normalizeFileAnalysis cenv.parse file_info.name result
      else mockFileAnalysis ProviderKind.openai file_info
  | ProviderKind.gemini =>
      if p.is_available then
        match cenv.geminiCall with
        | Except.error _ => mockFileAnalysis ProviderKind.gemini file_info
        | Except.ok result => normalizeFileAnalysis cenv.parse file_info.name result
      else mockFileAnalysis ProviderKind.gemini file_info
  | ProviderKind.openrouter =>
      if p.is_available then
        match openRouterCallText cenv.orTransport with
        | Except.error _ => mockFileAnalysis ProviderKind.openrouter file_info
        | Except.ok result => normalizeFileAnalysis cenv.parse file_info.name result
      else mockFileAnalysis ProviderKind.openrouter file_info
  | ProviderKind.mockP => mockFileAnalysis ProviderKind.mockP file_info

/-- Dynamic dispatch of `generate_repository_summary`
(`openai_provider.py` lines 79-120, `gemini_provider.py` lines 68-98,
`openrouter_provider.py` lines 76-124, `ai_manager.py` lines 93-94); the
`file_analyses` parameter is accepted but never read by any variant. -/
def Provider.generate_repository_summary (p : Provider) (cenv : CallEnv)
    (repo_data : RepoData) (_file_analyses : List JObj) : JObj :=
  match p.kind with
  | ProviderKind.openai =>
      if p.is_available then
        match cenv.openaiCall with
        | Except.error _ => mockRepositorySummary ProviderKind.openai repo_data
        | Except.ok result => normalizeRepoSummary cenv.parse ProviderKind.openai repo_data result
      else mockRepositorySummary ProviderKind.openai repo_data
  | ProviderKind.gemini =>
      if p.is_available then
        match cenv.geminiCall with
        | Except.error _ => mockRepositorySummary ProviderKind.gemini repo_data
        | Except.ok result => normalizeRepoSummary cenv.parse ProviderKind.gemini repo_data result
      else mockRepositorySummary ProviderKind.gemini repo_data
  | ProviderKind.openrouter =>
      if p.is_available then
        match openRouterCallText cenv.orTransport with
        | Except.error _ => mockRepositorySummary ProviderKind.openrouter repo_data
        | Except.ok result => normalizeRepoSummary cenv.parse ProviderKind.openrouter repo_data result
      else mockRepositorySummary ProviderKind.openrouter repo_data
  | ProviderKind.mockP => mockRepositorySummary ProviderKind.mockP repo_data

/-- Dynamic dispatch of `generate_architecture_diagram`
(`openai_provider.py` lines 122-147, `gemini_provider.py` lines 100-112,
`openrouter_provider.py` lines 126-158, `ai_manager.py` lines 96-97): the
reply text is returned verbatim, with no normalization. -/
def Provider.generate_architecture_diagram (p : Provider) (cenv : CallEnv)
    (repo_data : RepoData) : String :=
  match p.kind with
  | ProviderKind.openai =>
      if p.is_available then
        match cenv.openaiCall with
        | Except.error _ => mockArchitectureDiagram ProviderKind.openai repo_data
        | Except.ok result => result
      else mockArchitectureDiagram ProviderKind.openai repo_data
  | ProviderKind.gemini =>
      if p.is_available then
        match cenv.geminiCall with
        | Except.error _ => mockArchitectureDiagram ProviderKind.gemini repo_data
        | Except.ok result => result
      else mockArchitectureDiagram ProviderKind.gemini repo_data
  | ProviderKind.openrouter =>
      if p.is_available then
        match openRouterCallText cenv.orTransport with
        | Except.error _ => mockArchitectureDiagram ProviderKind.openrouter repo_data
        | Except.ok result => result
      else mockArchitectureDiagram ProviderKind.openrouter repo_data
  | ProviderKind.mockP => mockArchitectureDiagram ProviderKind.mockP repo_data

/-- `AIManager.load_providers` (`ai_manager.py` lines 21-33): build the
provider dict in insertion order, adding each adapter exactly when its
credential is truthy; any TypeError raised while instantiating an adapter
propagates. -/
def load_providers (cfg : Config) (env : Env) :
    Except PyErr (List (String × Provider)) :=
  (if truthy cfg.OPENAI_API_KEY then
      (instantiateProvider ProviderKind.openai cfg.OPENAI_API_KEY env.openaiImportOk).map
        (fun p => [("openai", p)])
    else Except.ok []).bind (fun l1 =>
  (if truthy cfg.GEMINI_API_KEY then
      (instantiateProvider ProviderKind.gemini cfg.GEMINI_API_KEY env.geminiImportOk).map
        (fun p => l1 ++ [("gemini", p)])
    else Except.ok l1).bind (fun l2 =>
  if truthy cfg.OPENROUTER_API_KEY then
      (instantiateProvider ProviderKind.openrouter cfg.OPENROUTER_API_KEY true).map
        (fun p => l2 ++ [("openrouter", p)])
    else Except.ok l2))

/-- `AIManager.get_available_providers` (`ai_manager.py` lines 35-37). -/
def get_available_providers (providers : List (String × Provider)) : List String :=
  (providers.filter (fun np => np.2.is_available)).map (fun np => np.1)

/-- `AIManager._create_mock_provider` (`ai_manager.py` lines 84-127):
instantiate the inner `MockProvider` class; because `MockProvider` leaves
the abstract `is_available` undefined this raises TypeError. -/
def create_mock_provider : Except PyErr Provider :=
  instantiateProvider ProviderKind.mockP (some "mock_key") true

/-- `AIManager.get_provider` (`ai_manager.py` lines 39-54): if a truthy name
is given, is registered and that adapter is available, return it; otherwise
scan the registry in insertion order for the first available adapter; if
none is available, fall back to `_create_mock_provider`. -/
def get_provider (providers : List (String × Provider))
    (provider_name : Option String) : Except PyErr Provider :=
  match (if truthy provider_name
         then List.lookup (provider_name.getD "") providers
         else none) with
  | some provider =>
      if provider.is_available then Except.ok provider
      else
        match providers.find? (fun np => np.2.is_available) with
        | some np => Except.ok np.2
        | none => create_mock_provider
  | none =>
      match providers.find? (fun np => np.2.is_available) with
      | some np => Except.ok np.2
      | none => create_mock_provider

/-- `AIManager.get_provider_status` (`ai_manager.py` lines 77-82). -/
def get_provider_status (providers : List (String × Provider)) :
    List (String × UsageInfo) :=
  providers.map (fun np => (np.1, np.2.get_usage_info))

/-- `AIManager.generate_file_analysis` (`ai_manager.py` lines 56-61):
resolve a provider and delegate; `get_provider` never returns `None`, so the
dead `self._mock_file_analysis` branch is unreachable. -/
def AIManager.generate_file_analysis (providers : List (String × Provider))
    (cenv : CallEnv) (file_info : FileInfo) (provider_name : Option String) :
    Except PyErr JObj :=
  (get_provider providers provider_name).map
    (fun p => p.generate_file_analysis cenv file_info)

/-- `AIManager.generate_repository_summary` (`ai_manager.py` lines 63-68). -/
def AIManager.generate_repository_summary (providers : List (String × Provider))
    (cenv : CallEnv) (repo_data : RepoData) (file_analyses : List JObj)
    (provider_name : Option String) : Except PyErr JObj :=
  (get_provider providers provider_name).map
    (fun p => p.generate_repository_summary cenv repo_data file_analyses)

/-- `AIManager.generate_architecture_diagram` (`ai_manager.py` lines 70-75). -/
def AIManager.generate_architecture_diagram (providers : List (String × Provider))
    (cenv : CallEnv) (repo_data : RepoData) (provider_name : Option String) :
    Except PyErr String :=
  (get_provider providers provider_name).map
    (fun p => p.generate_architecture_diagram cenv repo_data)

/-- Whether a dict value is Python `None` / JSON `null`. -/
def JVal.isNull : JVal → Bool
  | JVal.jnull => true
  | _ => false

/-- The six fields the spec requires of every AnalysisResult. -/
def analysisFields : List String :=
  ["file_name", "description", "key_components", "purpose",
   "dependencies", "complexity"]

/-- A dict field is populated when it is present and not null. -/
def fieldPopulated (o : JObj) (k : String) : Bool :=
  match List.lookup k o with
  | some v => !v.isNull
  | none => false

/-- An AnalysisResult is fully populated when all six fields are populated. -/
def fullyPopulated (o : JObj) : Bool :=
  analysisFields.all (fun k => fieldPopulated o k)

/-- Fixture: a configuration with no credential set. -/
def cfgNone : Config :=
  { OPENAI_API_KEY := none, GEMINI_API_KEY := none, OPENROUTER_API_KEY := none }

/-- Fixture: both optional libraries import successfully. -/
def envDefault : Env := { openaiImportOk := true, geminiImportOk := true }

/-- Fixture: an external world in which every backend call fails and nothing
parses. -/
def cenvIdle : CallEnv :=
  { parse := fun _ => none, openaiCall := Except.error (),
    geminiCall := Except.error (), orTransport := Transport.netFail }

/-- Fixture: the file descriptor of the spec's no-credentials scenario. -/
def fiApp : FileInfo := { name := "app.py", language := "python", content := "print(1)" }

/-- Fixture: a small repository descriptor. -/
def repoDemo : RepoData :=
  { name := "demo", languages := [("python", 2)], file_count := 2, size_mb := 1 }

/-- Fixture: the reply text consisting of an empty JSON object. -/
def emptyObjText : String := "\x7b\x7d"

/-- Fixture: a `json.loads` model that parses the empty object and rejects
everything else, as the real `json.loads` does on these inputs. -/
def parseEmptyObj : String → Option JObj :=
  fun s => if s = emptyObjText then some [] else none

/-- Fixture: an OpenAI provider constructed with a key and a successful
library import, hence available. -/
def openaiAvailable : Provider := initProvider ProviderKind.openai (some "sk-test") true

/-- Fixture: an OpenRouter provider state (only hypothetically constructible). -/
def orAvailable : Provider := initProvider ProviderKind.openrouter (some "or-key") true

/-- Fixture: external world in which the OpenAI call answers with the empty
JSON object. -/
def cenvEmptyObjReply : CallEnv :=
  { parse := parseEmptyObj, openaiCall := Except.ok emptyObjText,
    geminiCall := Except.error (), orTransport := Transport.netFail }

/-- Fixture: interior of the structured block of the round-trip test reply. -/
def c6mid : List Char := ("\"a\": 1").data

/-- Fixture: the structured block of the round-trip test reply. -/
def c6block : List Char := '{' :: (c6mid ++ ['}'])

/-- Fixture: the structured block as a string. -/
def c6blockStr : String := String.mk c6block

/-- Fixture: prose before the block (no opening brace). -/
def c6pre : List Char := "Here is the analysis: ".data

/-- Fixture: prose after the block (no closing brace). -/
def c6post : List Char := " hope that helps".data

/-- Fixture: the full round-trip reply, block surrounded by prose. -/
def c6reply : String := String.mk (c6pre ++ c6block ++ c6post)

/-- Fixture: the parse of the structured block. -/
def c6obj : JObj := [("a", JVal.jnum 1)]

/-- Fixture: a `json.loads` model that parses exactly the round-trip block. -/
def parseC6 : String → Option JObj :=
  fun s => if s = c6blockStr then some c6obj else none

/-- Fixture: a 4001-character file content. -/
def longContent : String := String.mk (List.replicate 4001 'x')

/-- Fixture: a file descriptor whose content exceeds the 4000-character cap. -/
def fiLong : FileInfo := { name := "big.py", language := "python", content := longContent }

lemma lookup_mem {β : Type} {l : List (String × β)} {n : String} {b : β}
    (h : List.lookup n l = some b) : (n, b) ∈ l := by
  induction l with
  | nil => simp [List.lookup] at h
  | cons hd tl ih =>
    rw [List.lookup] at h
    split at h
    · next heq =>
      cases h
      have hn : n = hd.1 := by simpa using heq
      subst hn
      simp
    · exact List.mem_cons_of_mem _ (ih h)

lemma extractBracesL_of_split (pre mid post : List Char)
    (hpre : '{' ∉ pre) (hpost : '}' ∉ post) :
    extractBracesL (pre ++ ('{' :: (mid ++ ['}'])) ++ post) = some ('{' :: (mid ++ ['}'])) := by
  simp only [extractBracesL]
  have h1 : (pre ++ ('{' :: (mid ++ ['}'])) ++ post).dropWhile (fun c => !(c == '{'))
      = '{' :: ((mid ++ ['}']) ++ post) := by
    rw [List.append_assoc]
    rw [List.dropWhile_append_of_pos (by intro a ha; simp; intro hc; exact hpre (hc ▸ ha))]
    rw [List.cons_append]
    rw [List.dropWhile_cons_of_neg (by simp)]
  rw [h1]
  have h2 : ('{' :: ((mid ++ ['}']) ++ post)).reverse
      = post.reverse ++ ('}' :: (mid.reverse ++ ['{'])) := by
    simp [List.reverse_append]
  rw [h2]
  have h3 : (post.reverse ++ ('}' :: (mid.reverse ++ ['{']))).dropWhile (fun c => !(c == '}'))
      = '}' :: (mid.reverse ++ ['{']) := by
    rw [List.dropWhile_append_of_pos
      (by intro a ha; simp; intro hc; exact hpost (hc ▸ (List.mem_reverse.mp ha)))]
    rw [List.dropWhile_cons_of_neg (by simp)]
  rw [h3]
  have h4 : ('}' :: (mid.reverse ++ ['{'])).reverse = '{' :: (mid ++ ['}']) := by
    simp [List.reverse_append]
  rw [h4]
  simp

lemma create_mock_provider_raises : create_mock_provider = Except.error PyErr.typeError := rfl

lemma get_provider_none_available {providers : List (String × Provider)}
    {name : Option String}
    (h : providers.find? (fun np => np.2.is_available) = none) :
    get_provider providers name = Except.error PyErr.typeError := by
  unfold get_provider
  split
  · next p hp =>
    have hmem : ((name.getD ""), p) ∈ providers := by
      by_cases ht : truthy name = true
      · rw [if_pos ht] at hp
        exact lookup_mem hp
      · rw [if_neg ht] at hp
        cases hp
    have hnav := List.find?_eq_none.mp h _ hmem
    rw [if_neg (by simpa using hnav), h]
    exact create_mock_provider_raises
  · rw [h]
    exact create_mock_provider_raises

/-- C1: code_bug evidence. The first two clauses of the claim hold:
`get_provider` with a registered and available name returns exactly that
adapter, and otherwise returns the first available adapter in registration
order. The final clause is false on the code: when no adapter is available,
`get_provider` does not return a Mock adapter — it raises TypeError while
instantiating the inner `MockProvider`, which leaves the abstract
`is_available` undefined. -/
theorem c1_get_provider_selection_and_mock_fallback_raises :
    (∀ (providers : List (String × Provider)) (n : String) (p : Provider),
        truthy (some n) = true → List.lookup n providers = some p →
        p.is_available = true → get_provider providers (some n) = Except.ok p) ∧
    (∀ (providers : List (String × Provider)) (x : String × Provider),
        providers.find? (fun np => np.2.is_available) = some x →
        get_provider providers none = Except.ok x.2) ∧
    (∀ (providers : List (String × Provider)) (name : Option String),
        providers.find? (fun np => np.2.is_available) = none →
        get_provider providers name = Except.error PyErr.typeError) := by
  refine ⟨?_, ?_, ?_⟩
  · intro providers n p ht hl ha
    unfold get_provider
    rw [if_pos ht]
    simp only [Option.getD_some]
    rw [hl]
    simp [ha]
  · intro providers x h
    unfold get_provider
    show (match providers.find? (fun np => np.2.is_available) with
          | some np => Except.ok np.2
          | none => create_mock_provider) = Except.ok x.2
    rw [h]
  · intro providers name h
    exact get_provider_none_available h

/-- C1 witness: concrete registries exercising all three branches. -/
theorem c1_witness :
    get_provider [("openai", openaiAvailable)] (some "openai") = Except.ok openaiAvailable ∧
    get_provider [("openai", openaiAvailable)] none = Except.ok openaiAvailable ∧
    get_provider [] none = Except.error PyErr.typeError :=
  ⟨c1_get_provider_selection_and_mock_fallback_raises.1
      [("openai", openaiAvailable)] "openai" openaiAvailable rfl rfl rfl,
   c1_get_provider_selection_and_mock_fallback_raises.2.1
      [("openai", openaiAvailable)] ("openai", openaiAvailable) rfl,
   c1_get_provider_selection_and_mock_fallback_raises.2.2 [] none rfl⟩

/-- C2: code_bug evidence. The adapter-boundary half of the claim holds: a
network failure or a non-2xx response in the OpenRouter adapter's call, and
a raised call in the OpenAI adapter, are caught at the adapter boundary and
the call returns that class's mock file analysis. The entry-point half is
false on the code: with no available provider (a provider-related
condition), all three orchestration entry points raise TypeError while
constructing the fallback MockProvider. -/
theorem c2_transport_errors_absorbed_but_entry_points_can_raise :
    (∀ (p : Provider) (cenv : CallEnv) (file_info : FileInfo),
        p.kind = ProviderKind.openrouter → p.is_available = true →
        cenv.orTransport = Transport.netFail →
        p.generate_file_analysis cenv file_info
          = mockFileAnalysis ProviderKind.openrouter file_info) ∧
    (∀ (p : Provider) (cenv : CallEnv) (file_info : FileInfo) (status : Nat)
        (body : Option String),
        p.kind = ProviderKind.openrouter → p.is_available = true →
        cenv.orTransport = Transport.resp status body →
        400 ≤ status → status < 600 →
        p.generate_file_analysis cenv file_info
          = mockFileAnalysis ProviderKind.openrouter file_info) ∧
    (∀ (p : Provider) (cenv : CallEnv) (file_info : FileInfo),
        p.kind = ProviderKind.openai → cenv.openaiCall = Except.error () →
        p.generate_file_analysis cenv file_info
          = mockFileAnalysis ProviderKind.openai file_info) ∧
    (∀ (cenv : CallEnv) (file_info : FileInfo) (repo_data : RepoData)
        (file_analyses : List JObj) (name : Option String),
        AIManager.generate_file_analysis [] cenv file_info name
          = Except.error PyErr.typeError ∧
        AIManager.generate_repository_summary [] cenv repo_data file_analyses name
          = Except.error PyErr.typeError ∧
        AIManager.generate_architecture_diagram [] cenv repo_data name
          = Except.error PyErr.typeError) := by
  refine ⟨?_, ?_, ?_, ?_⟩
  · intro p cenv fi hk ha ht
    unfold Provider.generate_file_analysis
    rw [hk, ht]
    simp [ha, openRouterCallText]
  · intro p cenv fi status body hk ha ht h4 h6
    unfold Provider.generate_file_analysis
    rw [hk, ht]
    simp only [ha, if_true]
    simp only [openRouterCallText]
    rw [if_pos ⟨h4, h6⟩]
  · intro p cenv fi hk hc
    unfold Provider.generate_file_analysis
    rw [hk, hc]
    by_cases ha : p.is_available = true <;> simp [ha]
  · intro cenv fi repo analyses name
    have h : get_provider [] name = Except.error PyErr.typeError :=
      get_provider_none_available rfl
    refine ⟨?_, ?_, ?_⟩
    · unfold AIManager.generate_file_analysis
      rw [h]
      rfl
    · unfold AIManager.generate_repository_summary
      rw [h]
      rfl
    · unfold AIManager.generate_architecture_diagram
      rw [h]
      rfl

/-- C2 witness: a concrete available OpenRouter state under a network
failure and under a 500 response, and the manager on an empty registry. -/
theorem c2_witness :
    Provider.generate_file_analysis orAvailable cenvIdle fiApp
      = mockFileAnalysis ProviderKind.openrouter fiApp ∧
    Provider.generate_file_analysis orAvailable
      { parse := fun _ => none, openaiCall := Except.error (),
        geminiCall := Except.error (), orTransport := Transport.resp 500 none } fiApp
      = mockFileAnalysis ProviderKind.openrouter fiApp ∧
    AIManager.generate_file_analysis [] cenvIdle fiApp none
      = Except.error PyErr.typeError :=
  ⟨c2_transport_errors_absorbed_but_entry_points_can_raise.1
      orAvailable cenvIdle fiApp rfl rfl rfl,
   c2_transport_errors_absorbed_but_entry_points_can_raise.2.1
      orAvailable _ fiApp 500 none rfl rfl rfl (by decide) (by decide),
   (c2_transport_errors_absorbed_but_entry_points_can_raise.2.2.2
      cenvIdle fiApp repoDemo [] none).1⟩

/-- C3 counterexample: with the OpenAI adapter available and the backend
replying with the empty JSON object, `generate_file_analysis` returns the
parsed object as-is — an empty dict missing all six fields — so the claim
that every returned result is fully populated is false. -/
theorem c3_counterexample :
    Provider.generate_file_analysis openaiAvailable cenvEmptyObjReply fiApp = ([] : JObj) ∧
    fullyPopulated ([] : JObj) = false :=
  ⟨rfl, rfl⟩

/-- C3 amended: results from the wrapped-text fallback and from every mock
fallback are fully populated (all six fields present and non-null), but a
successfully parsed model reply is returned exactly as parsed and may lack
any of the fields. -/
theorem c3_amended_population :
    (∀ (file_name result : String), fullyPopulated (wrappedStub file_name result) = true) ∧
    (∀ (k : ProviderKind) (file_info : FileInfo),
        fullyPopulated (mockFileAnalysis k file_info) = true) ∧
    (∀ (p : Provider) (cenv : CallEnv) (file_info : FileInfo) (result cand : String)
        (obj : JObj),
        p.kind = ProviderKind.openai → p.is_available = true →
        cenv.openaiCall = Except.ok result →
        extractBraces result = some cand → cenv.parse cand = some obj →
        p.generate_file_analysis cenv file_info = obj) := by
  refine ⟨?_, ?_, ?_⟩
  · intro file_name result
    rfl
  · intro k file_info
    cases k <;> rfl
  · intro p cenv fi result cand obj hk ha hc he hp
    unfold Provider.generate_file_analysis
    rw [hk, hc]
    simp only [ha, if_true]
    unfold normalizeFileAnalysis
    rw [he]
    show (match cenv.parse cand with
          | some obj => obj
          | none => wrappedStub fi.name result) = obj
    rw [hp]

/-- C3 witness: concrete fully populated fallbacks, and the concrete
passthrough of a parsed empty object. -/
theorem c3_witness :
    fullyPopulated (wrappedStub "app.py" "hello") = true ∧
    fullyPopulated (mockFileAnalysis ProviderKind.mockP fiApp) = true ∧
    Provider.generate_file_analysis openaiAvailable cenvEmptyObjReply fiApp = ([] : JObj) :=
  ⟨c3_amended_population.1 "app.py" "hello",
   c3_amended_population.2.1 ProviderKind.mockP fiApp,
   c3_amended_population.2.2 openaiAvailable cenvEmptyObjReply fiApp
      emptyObjText emptyObjText [] rfl rfl rfl rfl rfl⟩

/-- C4: content capping. For every FileDescriptor, the content excerpt
placed in each real adapter's file-analysis request is the unmodified
content when its length is at most 4000 characters, and exactly the first
4000 characters followed by the truncation marker otherwise. -/
theorem c4_content_capping :
    ∀ file_info : FileInfo,
      (file_info.content.length ≤ 4000 →
        openaiFileUserContent file_info
          = "Analyze this " ++ file_info.language ++ " file: " ++ file_info.name
              ++ "\n\n" ++ file_info.content ∧
        openrouterFileUserContent file_info
          = "Analyze this " ++ file_info.language ++ " file: " ++ file_info.name
              ++ "\n\n" ++ file_info.content ∧
        geminiFileMessage file_info
          = fileAnalysisPrompt ++ "\n" ++ "Analyze this " ++ file_info.language
              ++ " file: " ++ file_info.name ++ "\n\n" ++ file_info.content) ∧
      (4000 < file_info.content.length →
        openaiFileUserContent file_info
          = "Analyze this " ++ file_info.language ++ " file: " ++ file_info.name
              ++ "\n\n" ++ (file_info.content.take 4000 ++ "... [truncated]") ∧
        openrouterFileUserContent file_info
          = "Analyze this " ++ file_info.language ++ " file: " ++ file_info.name
              ++ "\n\n" ++ (file_info.content.take 4000 ++ "... [truncated]") ∧
        geminiFileMessage file_info
          = fileAnalysisPrompt ++ "\n" ++ "Analyze this " ++ file_info.language
              ++ " file: " ++ file_info.name ++ "\n\n"
              ++ (file_info.content.take 4000 ++ "... [truncated]")) := by
  intro fi
  constructor
  · intro h
    refine ⟨?_, ?_, ?_⟩ <;>
      · simp only [openaiFileUserContent, openrouterFileUserContent, geminiFileMessage]
        rw [if_neg (by omega)]
  · intro h
    refine ⟨?_, ?_, ?_⟩ <;>
      · simp only [openaiFileUserContent, openrouterFileUserContent, geminiFileMessage]
        rw [if_pos h]

/-- C4 witness: a short content passes through unmodified; a 4001-character
content is capped at 4000 characters plus the marker. -/
theorem c4_witness :
    (fiApp.content.length ≤ 4000 ∧
      openaiFileUserContent fiApp
        = "Analyze this " ++ fiApp.language ++ " file: " ++ fiApp.name
            ++ "\n\n" ++ fiApp.content) ∧
    (4000 < fiLong.content.length ∧
      openrouterFileUserContent fiLong
        = "Analyze this " ++ fiLong.language ++ " file: " ++ fiLong.name
            ++ "\n\n" ++ (fiLong.content.take 4000 ++ "... [truncated]")) := by
  have hshort : fiApp.content.length ≤ 4000 := by decide
  have hlen : fiLong.content.length = 4001 := by
    show (List.replicate 4001 'x').length = 4001
    rw [List.length_replicate]
  have hlong : 4000 < fiLong.content.length := by omega
  exact ⟨⟨hshort, ((c4_content_capping fiApp).1 hshort).1⟩,
         ⟨hlong, ((c4_content_capping fiLong).2 hlong).2.1⟩⟩

/-- C5 counterexample: the claim fails twice on the code. For a file-analysis
reply that is the empty string (which contains no brace-delimited block) the
wrapped stub's description is the empty string, not a non-empty field; and
for a repository-summary reply with no brace-delimited block the adapter
returns the deterministic mock summary, whose overview is a fixed string
unrelated to the reply and whose list fields are non-empty. -/
theorem c5_counterexample :
    extractBraces "" = none ∧
    normalizeFileAnalysis parseEmptyObj "app.py" "" = wrappedStub "app.py" "" ∧
    List.lookup "description" (wrappedStub "app.py" "") = some (JVal.jstr "") ∧
    extractBraces "hello" = none ∧
    normalizeRepoSummary parseEmptyObj ProviderKind.openai repoDemo "hello"
      = mockRepositorySummary ProviderKind.openai repoDemo ∧
    List.lookup "overview" (mockRepositorySummary ProviderKind.openai repoDemo)
      = some (JVal.jstr "OpenAI-powered repository analysis") ∧
    List.lookup "key_features" (mockRepositorySummary ProviderKind.openai repoDemo)
      = some (JVal.jlist [JVal.jobj [("name", JVal.jstr "Core"),
                                     ("description", JVal.jstr "Main features")]]) ∧
    JVal.jlist [JVal.jobj [("name", JVal.jstr "Core"),
                           ("description", JVal.jstr "Main features")]]
      ≠ JVal.jlist [] := by
  refine ⟨rfl, rfl, rfl, rfl, rfl, rfl, rfl, ?_⟩
  simp

/-- C5 amended: for file-analysis replies with no brace-delimited block the
result is the wrapped-text stub whose description is exactly the raw reply
(hence non-empty whenever the reply is non-empty) with empty list fields;
for repository-summary replies with no brace-delimited block the adapter
instead returns its deterministic mock summary. Neither path raises. -/
theorem c5_amended_normalizer_degradation :
    (∀ (parse : String → Option JObj) (file_name result : String),
        extractBraces result = none →
        normalizeFileAnalysis parse file_name result = wrappedStub file_name result ∧
        List.lookup "description" (normalizeFileAnalysis parse file_name result)
          = some (JVal.jstr result) ∧
        List.lookup "key_components" (normalizeFileAnalysis parse file_name result)
          = some (JVal.jlist []) ∧
        List.lookup "dependencies" (normalizeFileAnalysis parse file_name result)
          = some (JVal.jlist []) ∧
        (result ≠ "" →
          List.lookup "description" (normalizeFileAnalysis parse file_name result)
            ≠ some (JVal.jstr ""))) ∧
    (∀ (parse : String → Option JObj) (k : ProviderKind) (repo_data : RepoData)
        (result : String),
        extractBraces result = none →
        normalizeRepoSummary parse k repo_data result
          = mockRepositorySummary k repo_data) := by
  constructor
  · intro parse file_name result h
    have hw : normalizeFileAnalysis parse file_name result = wrappedStub file_name result := by
      unfold normalizeFileAnalysis
      rw [h]
    refine ⟨hw, ?_, ?_, ?_, ?_⟩
    · rw [hw]; rfl
    · rw [hw]; rfl
    · rw [hw]; rfl
    · intro hne
      rw [hw]
      show some (JVal.jstr result) ≠ some (JVal.jstr "")
      simp [hne]
  · intro parse k repo_data result h
    unfold normalizeRepoSummary
    rw [h]

/-- C5 witness: a concrete brace-free reply exercising both the file and the
summary paths. -/
theorem c5_witness :
    extractBraces "plain text reply" = none ∧
    normalizeFileAnalysis parseEmptyObj "app.py" "plain text reply"
      = wrappedStub "app.py" "plain text reply" ∧
    ("plain text reply" : String) ≠ "" ∧
    List.lookup "description" (normalizeFileAnalysis parseEmptyObj "app.py" "plain text reply")
      ≠ some (JVal.jstr "") ∧
    normalizeRepoSummary parseEmptyObj ProviderKind.gemini repoDemo "plain text reply"
      = mockRepositorySummary ProviderKind.gemini repoDemo :=
  ⟨rfl,
   (c5_amended_normalizer_degradation.1 parseEmptyObj "app.py" "plain text reply" rfl).1,
   by decide,
   (c5_amended_normalizer_degradation.1 parseEmptyObj "app.py" "plain text reply" rfl).2.2.2.2
     (by decide),
   c5_amended_normalizer_degradation.2 parseEmptyObj ProviderKind.gemini repoDemo
     "plain text reply" rfl⟩

/-- C6: Normalizer round trip. For every reply that is a brace-delimited
block surrounded by prose with no opening brace before it and no closing
brace after it, the greedy scan extracts exactly the block, and when
`json.loads` parses that block the normalizer returns the parsed structure,
ignoring the surrounding prose. -/
theorem c6_normalizer_round_trip :
    ∀ (parse : String → Option JObj) (file_name : String) (s : String)
      (pre mid post : List Char) (v : JObj),
      s.data = pre ++ ('{' :: (mid ++ ['}'])) ++ post →
      '{' ∉ pre → '}' ∉ post →
      parse (String.mk ('{' :: (mid ++ ['}']))) = some v →
      extractBraces s = some (String.mk ('{' :: (mid ++ ['}']))) ∧
      normalizeFileAnalysis parse file_name s = v := by
  intro parse file_name s pre mid post v hs hpre hpost hparse
  have he : extractBraces s = some (String.mk ('{' :: (mid ++ ['}']))) := by
    unfold extractBraces
    rw [hs, extractBracesL_of_split pre mid post hpre hpost]
    rfl
  refine ⟨he, ?_⟩
  unfold normalizeFileAnalysis
  rw [he]
  show (match parse (String.mk ('{' :: (mid ++ ['}']))) with
        | some obj => obj
        | none => wrappedStub file_name s) = v
  rw [hparse]

/-- C6 witness: a concrete prose-wrapped block round-trips. -/
theorem c6_witness :
    extractBraces c6reply = some c6blockStr ∧
    normalizeFileAnalysis parseC6 "app.py" c6reply = c6obj := by
  have h := c6_normalizer_round_trip parseC6 "app.py" c6reply c6pre c6mid c6post c6obj
    rfl (by decide) (by decide) rfl
  exact ⟨h.1, h.2⟩

/-- C7: a real adapter constructed without a truthy credential is never
available; `get_provider` only ever returns available providers; and any
provider whose `is_available` is true has a truthy credential, so a
credential-less provider is never selected. -/
theorem c7_no_credential_never_available :
    (∀ (k : ProviderKind) (api_key : Option String) (importOk : Bool),
        k ≠ ProviderKind.mockP → truthy api_key = false →
        (initProvider k api_key importOk).is_available = false) ∧
    (∀ (providers : List (String × Provider)) (name : Option String) (p : Provider),
        get_provider providers name = Except.ok p → p.is_available = true) ∧
    (∀ (k : ProviderKind) (api_key : Option String) (importOk : Bool),
        (initProvider k api_key importOk).is_available = true →
        truthy (initProvider k api_key importOk).api_key = true) := by
  refine ⟨?_, ?_, ?_⟩
  · intro k api_key io hk hf
    cases k with
    | openai => simp [initProvider, Provider.is_available, hf]
    | gemini => simp [initProvider, Provider.is_available, hf]
    | openrouter => simp [initProvider, Provider.is_available, hf]
    | mockP => exact absurd rfl hk
  · intro providers name p h
    unfold get_provider at h
    split at h
    · next provider hp =>
      by_cases ha : provider.is_available = true
      · rw [if_pos ha] at h
        cases h
        exact ha
      · rw [if_neg ha] at h
        split at h
        · next np hf =>
          cases h
          simpa using List.find?_some hf
        · rw [create_mock_provider_raises] at h
          cases h
    · split at h
      · next np hf =>
        cases h
        simpa using List.find?_some hf
      · rw [create_mock_provider_raises] at h
        cases h
  · intro k api_key io h
    cases k with
    | openai =>
      by_cases ht : truthy api_key = true
      · cases io <;> simp [initProvider, ht]
      · simp [initProvider, Provider.is_available, ht] at h
    | gemini =>
      by_cases ht : truthy api_key = true
      · cases io <;> simp [initProvider, ht]
      · simp [initProvider, Provider.is_available, ht] at h
    | openrouter =>
      simp [initProvider, Provider.is_available] at h
      simpa [initProvider] using h
    | mockP =>
      rfl

/-- C7 witness: a key-less OpenAI adapter is unavailable; a concrete
selection returns an available, credentialed adapter. -/
theorem c7_witness :
    (initProvider ProviderKind.openai none true).is_available = false ∧
    get_provider [("openai", openaiAvailable)] none = Except.ok openaiAvailable ∧
    openaiAvailable.is_available = true ∧
    truthy openaiAvailable.api_key = true :=
  ⟨c7_no_credential_never_available.1 ProviderKind.openai none true (by decide) rfl,
   rfl,
   c7_no_credential_never_available.2.1 [("openai", openaiAvailable)] none
     openaiAvailable rfl,
   c7_no_credential_never_available.2.2 ProviderKind.openai (some "sk-test") true rfl⟩

/-- C8 counterexample: with no credentials configured, `load_providers`
registers no adapters at all, so `get_provider_status` returns an empty
mapping rather than reporting the real adapters as disabled, and the
orchestration call raises TypeError instead of returning Mock-shaped
output. -/
theorem c8_counterexample :
    load_providers cfgNone envDefault = Except.ok [] ∧
    get_provider_status [] = ([] : List (String × UsageInfo)) ∧
    AIManager.generate_file_analysis [] cenvIdle fiApp none
      = Except.error PyErr.typeError :=
  ⟨rfl, rfl, rfl⟩

/-- C8 amended: when no provider credentials are configured, no adapter is
registered, `get_provider_status` returns the empty mapping, and every
orchestration call raises TypeError while constructing the fallback
MockProvider; the inner MockProvider's file-analysis body — were the class
instantiable — would produce, for the scenario's descriptor, file_name
"app.py", a description containing "python", and complexity "medium". -/
theorem c8_amended_no_credentials_scenario :
    ∀ (env : Env) (cenv : CallEnv) (file_info : FileInfo) (name : Option String),
      load_providers cfgNone env = Except.ok [] ∧
      get_provider_status [] = ([] : List (String × UsageInfo)) ∧
      AIManager.generate_file_analysis [] cenv file_info name
        = Except.error PyErr.typeError ∧
      List.lookup "file_name" (mockFileAnalysis ProviderKind.mockP fiApp)
        = some (JVal.jstr "app.py") ∧
      List.lookup "description" (mockFileAnalysis ProviderKind.mockP fiApp)
        = some (JVal.jstr "Mock analysis for python file") ∧
      ("Mock analysis for python file").data
        = ("Mock analysis for ").data ++ ("python").data ++ (" file").data ∧
      List.lookup "complexity" (mockFileAnalysis ProviderKind.mockP fiApp)
        = some (JVal.jstr "medium") := by
  intro env cenv file_info name
  have h : get_provider [] name = Except.error PyErr.typeError :=
    get_provider_none_available rfl
  refine ⟨rfl, rfl, ?_, rfl, rfl, rfl, rfl⟩
  unfold AIManager.generate_file_analysis
  rw [h]
  rfl

/-- C9: noninterference in the `file_analyses` argument. For every
repository descriptor, every adapter builds the same summary request payload
regardless of the analyses passed, and — under the same external call
outcomes — `generate_repository_summary` returns the same result for any
two analyses lists. -/
theorem c9_analyses_noninterference :
    ∀ (p : Provider) (cenv : CallEnv) (repo_data : RepoData) (a1 a2 : List JObj),
      openaiRepoSummaryMessages repo_data a1 = openaiRepoSummaryMessages repo_data a2 ∧
      openrouterRepoSummaryMessages repo_data a1 = openrouterRepoSummaryMessages repo_data a2 ∧
      geminiRepoSummaryMessage repo_data a1 = geminiRepoSummaryMessage repo_data a2 ∧
      p.generate_repository_summary cenv repo_data a1
        = p.generate_repository_summary cenv repo_data a2 := by
  intro p cenv repo_data a1 a2
  refine ⟨rfl, rfl, rfl, ?_⟩
  rcases p with ⟨k, n, key, en, hc⟩
  cases k <;> rfl

/-- C10: `OpenRouterProvider` and the Manager's inner `MockProvider` both
leave the abstract `is_available` undefined, so instantiating either raises
TypeError; hence constructing the Manager raises whenever
`OPENROUTER_API_KEY` is truthy, and `get_provider` raises whenever it
reaches the mock-fallback branch. -/
theorem c10_abstract_is_available_typeerror :
    definedMethodsOpenRouter.contains "is_available" = false ∧
    definedMethodsMock.contains "is_available" = false ∧
    instantiationOk definedMethodsOpenRouter = false ∧
    instantiationOk definedMethodsMock = false ∧
    (∀ (cfg : Config) (env : Env), truthy cfg.OPENROUTER_API_KEY = true →
        load_providers cfg env = Except.error PyErr.typeError) ∧
    (∀ (providers : List (String × Provider)) (name : Option String),
        providers.find? (fun np => np.2.is_available) = none →
        get_provider providers name = Except.error PyErr.typeError) := by
  refine ⟨rfl, rfl, rfl, rfl, ?_, ?_⟩
  · intro cfg env h
    unfold load_providers
    have hor : instantiateProvider ProviderKind.openrouter cfg.OPENROUTER_API_KEY true
        = Except.error PyErr.typeError := rfl
    have hoa : ∀ (key : Option String) (io : Bool),
        instantiateProvider ProviderKind.openai key io
          = Except.ok (initProvider ProviderKind.openai key io) := fun _ _ => rfl
    have hgm : ∀ (key : Option String) (io : Bool),
        instantiateProvider ProviderKind.gemini key io
          = Except.ok (initProvider ProviderKind.gemini key io) := fun _ _ => rfl
    by_cases h1 : truthy cfg.OPENAI_API_KEY = true <;>
      by_cases h2 : truthy cfg.GEMINI_API_KEY = true <;>
        simp [h1, h2, h, hor, hoa, hgm, Except.map, Except.bind]
  · intro providers name h
    exact get_provider_none_available h

/-- C10 witness: a configuration with only the OpenRouter key set makes
Manager construction raise, and a registry with no available provider makes
selection raise. -/
theorem c10_witness :
    truthy (some "or-key") = true ∧
    load_providers
      { OPENAI_API_KEY := none, GEMINI_API_KEY := none,
        OPENROUTER_API_KEY := some "or-key" } envDefault
      = Except.error PyErr.typeError ∧
    get_provider [] (some "openrouter") = Except.error PyErr.typeError :=
  ⟨rfl,
   c10_abstract_is_available_typeerror.2.2.2.2.1
     { OPENAI_API_KEY := none, GEMINI_API_KEY := none,
       OPENROUTER_API_KEY := some "or-key" } envDefault rfl,
   c10_abstract_is_available_typeerror.2.2.2.2.2 [] (some "openrouter") rfl⟩
